import Mathlib

/-!
# Verification of the zap startup orchestrator

Shallow embedding of `src-electron/main-process/electron-main.js`.

The source file is a promise-chain orchestrator: every mode of the
application runs a staged initialization pipeline (open database,
register it as the main database, load schema, load ZCL metadata,
load generation templates) and then branches into a mode-specific
terminal action.  We model each collaborator invocation as an event
in a trace; an `Oracle` decides which asynchronous collaborator call
resolves and which rejects, so the behavior of a mode is a pure function
from the oracle and the parsed arguments to a trace together with the
overall settlement status of the promise chain.
-/

namespace Zap

/-- One observable effect of the orchestrator: a collaborator
invocation, a log emission, a stdout line, a filesystem operation,
or a process-termination request. -/
inductive Ev where
  | logInitStdout
  | logArgv
  | initDatabase
  | setMainDatabase
  | loadSchema
  | loadZcl (path : String)
  | loadTemplates (path : String)
  | initHttpServer (configPort : Nat)
  | windowOpen (port : Nat) (uiMode : String)
  | windowCreate (port : Nat)
  | dockHide
  | stdout (line : String)
  | logInfo (msg : String)
  | logWarning (msg : String)
  | logError
  | setTemplateDir (dir : String)
  | generateCode (outDir : String)
  | runSdkGen (outDir : String) (tmplDir : Option String)
  | quit
  | unlink (p : String)
  | rename (src dst : String)
  | closeDatabase
  deriving DecidableEq, Repr

abbrev Trace := List Ev

/-- The settled result of a promise chain: the events it emitted, in
order, and whether the chain resolved (`ok = true`) or rejected. -/
structure Run where
  trace : Trace
  ok : Bool
  deriving DecidableEq, Repr

/-- A single awaited collaborator call: it is invoked (the event is
emitted) and then either resolves or rejects as the oracle dictates. -/
def step (ok : Bool) (e : Ev) : Run := ⟨[e], ok⟩

/-- Synchronous effects that cannot reject. -/
def emit (t : Trace) : Run := ⟨t, true⟩

/-- Sequencing of promise chains (`.then`): the continuation runs only
if the first part resolved; a rejection short-circuits past it. -/
def Run.andThen (r : Run) (k : Run) : Run :=
  if r.ok then ⟨r.trace ++ k.trace, k.ok⟩ else r

/-- The catch handler that logs and rethrows: on rejection
log the error once and re-raise; on resolution do nothing. -/
def Run.catchLogRethrow (r : Run) : Run :=
  if r.ok then r else ⟨r.trace ++ [Ev.logError], false⟩

/-- Success/failure decisions for every awaited collaborator call,
plus the values the environment supplies (the port the HTTP server
actually binds, whether the platform has a dock). -/
structure Oracle where
  initDatabaseOk : Bool
  loadSchemaOk : Bool
  loadZclOk : Bool
  loadTemplatesOk : Bool
  initHttpServerOk : Bool
  setTemplateDirOk : Bool
  generateOk : Bool
  sdkGenOk : Bool
  closeDatabaseOk : Bool
  boundPort : Nat
  hasDock : Bool
  deriving DecidableEq, Repr

/-- The parsed command-line arguments (`argv`) together with the
static configuration exported by `args.js`. -/
structure Args where
  tokens : List String
  clearDb : Bool
  output : String
  template : Option String
  zclProperties : Option String
  noUi : Bool
  showUrl : Bool
  uiMode : String
  zclPropertiesFile : String
  genTemplateJsonFile : String
  httpPort : Nat
  deriving DecidableEq, Repr

/-- JavaScript truthiness of an optional string value: `null` /
`undefined` and the empty string are falsy, every other string is
truthy. -/
def truthyStr : Option String → Bool
  | none => false
  | some s => !(s == "")

/-- The ternary `zclPropertiesFilePath ? zclPropertiesFilePath :
args.zclPropertiesFile` used by both generation modes. -/
def resolveZclPath (override : Option String) (dflt : String) : String :=
  if truthyStr override then override.getD dflt else dflt

/-- Model of `attachToDb`: wraps `env.setMainDatabase(db)` in a promise that
always resolves with the handle. -/
def attachToDb : Run := step true Ev.setMainDatabase

/-- The four-stage chain shared by all modes:
`initDatabase → attachToDb → loadSchema → loadZcl`. -/
def chainToZcl (o : Oracle) (zclPath : String) : Run :=
  (step o.initDatabaseOk Ev.initDatabase).andThen
    attachToDb |>.andThen
    (step o.loadSchemaOk Ev.loadSchema) |>.andThen
    (step o.loadZclOk (Ev.loadZcl zclPath))

/-- The five-stage chain used by SelfCheck and Normal modes: the
shared four stages followed by `generatorEngine.loadTemplates`. -/
def chainToTemplates (o : Oracle) (a : Args) : Run :=
  (chainToZcl o a.zclPropertiesFile).andThen
    (step o.loadTemplatesOk (Ev.loadTemplates a.genTemplateJsonFile))

/-- Model of `startSelfCheck`. -/
def startSelfCheck (o : Oracle) (a : Args) : Run :=
  (emit [Ev.logInitStdout, Ev.stdout "Starting self-check"]).andThen
    (chainToTemplates o a) |>.andThen
    (emit [Ev.stdout "Self-check done!", Ev.quit]) |>.catchLogRethrow

/-- The final `.then` handler of `startNormal`: open the UI window on
the actually bound port, or hide the dock and optionally print the
landing URL. -/
def normalUiPart (o : Oracle) (uiEnabled showUrl : Bool) (uiMode : String) :
    Trace :=
  if uiEnabled then
    [Ev.windowOpen o.boundPort uiMode]
  else
    (if o.hasDock then [Ev.dockHide] else []) ++
      (if showUrl then
        [Ev.stdout
          ("url: http://localhost:" ++ toString o.boundPort ++ "/index.html")]
      else [])

/-- Model of `startNormal(uiEnabled, showUrl, uiMode)`. -/
def startNormal (o : Oracle) (a : Args)
    (uiEnabled showUrl : Bool) (uiMode : String) : Run :=
  (chainToTemplates o a).andThen
    (step o.initHttpServerOk (Ev.initHttpServer a.httpPort)) |>.andThen
    (emit (normalUiPart o uiEnabled showUrl uiMode)) |>.catchLogRethrow

/-- Model of `setGenerationDirAndTemplateDir`. -/
def setGenerationDirAndTemplateDir (o : Oracle)
    (generationDir : String) (handlebarTemplateDir : Option String) : Run :=
  if truthyStr handlebarTemplateDir then
    (step o.setTemplateDirOk
        (Ev.setTemplateDir (handlebarTemplateDir.getD ""))).andThen
      (step o.generateOk (Ev.generateCode generationDir))
  else
    step o.generateOk (Ev.generateCode generationDir)

/-- Model of `applyGenerationSettings` (Generate mode).  Note the chain has no
`.catch` and its terminal `app.quit()` sits in a `.then`. -/
def applyGenerationSettings (o : Oracle) (a : Args)
    (generationDir : String) (handlebarTemplateDir : Option String)
    (zclPropertiesFilePath : Option String) : Run :=
  (emit [Ev.logInfo "Start Generation..."]).andThen
    (chainToZcl o (resolveZclPath zclPropertiesFilePath a.zclPropertiesFile))
    |>.andThen
    (setGenerationDirAndTemplateDir o generationDir handlebarTemplateDir)
    |>.andThen (emit [Ev.quit])

/-- Model of `startSdkGeneration` (SdkGen mode).  Like Generate, no catch handler
and `app.quit()` in a final `.then`. -/
def startSdkGeneration (o : Oracle) (a : Args)
    (generationDir : String) (handlebarTemplateDir : Option String)
    (zclPropertiesFilePath : Option String) : Run :=
  (emit [Ev.logInfo "Start SDK generation..."]).andThen
    (chainToZcl o (resolveZclPath zclPropertiesFilePath a.zclPropertiesFile))
    |>.andThen
    (step o.sdkGenOk (Ev.runSdkGen generationDir handlebarTemplateDir))
    |>.andThen (emit [Ev.quit])

/-! ## Filesystem model for the store-reset rotation -/

/-- A filesystem as an association list from paths to file contents. -/
abbrev FS := List (String × String)

def existsSync (fs : FS) (p : String) : Bool := fs.any (fun kv => kv.1 == p)

def readFile (fs : FS) (p : String) : Option String :=
  (fs.find? (fun kv => kv.1 == p)).map (fun kv => kv.2)

def unlinkSync (fs : FS) (p : String) : FS :=
  fs.filter (fun kv => !(kv.1 == p))

/-- Model of `fs.renameSync(src, dst)`: move the contents at `src` to `dst`,
overwriting `dst`.  (Call sites in the source guard on `src`
existing.) -/
def renameSync (fs : FS) (src dst : String) : FS :=
  match readFile fs src with
  | none => fs
  | some c => (unlinkSync (unlinkSync fs src) dst) ++ [(dst, c)]

/-- Model of `clearDatabaseFile`: destructive backup rotation of the sqlite
file, run when a database reset was requested.  Returns the new
filesystem and the emitted events. -/
def clearDatabaseFile (sqliteFile : String) (fs : FS) : FS × Trace :=
  let path := sqliteFile
  let pathBak := path ++ "~"
  if existsSync fs path then
    let (fs1, t1) :=
      if existsSync fs pathBak then
        (unlinkSync fs pathBak,
          [Ev.logWarning ("Deleting old backup file: " ++ pathBak),
            Ev.unlink pathBak])
      else (fs, [])
    (renameSync fs1 path pathBak,
      t1 ++
        [Ev.logWarning
            ("Database restart requested, moving file: " ++ path ++ " to " ++
              pathBak),
          Ev.rename path pathBak])
  else (fs, [])

/-! ## Lifecycle handlers and dispatch -/

/-- The command classification chosen by the if/else chain of the
ready handler: `selfCheck` first, then `generate`, then `sdkGen`,
otherwise Normal. -/
inductive Mode where
  | selfCheck
  | generate
  | sdkGen
  | normal
  deriving DecidableEq, Repr

/-- Classification of the positional argument tokens (`argv._`),
mirroring the `includes` chain of the ready handler. -/
def classify (tokens : List String) : Mode :=
  if tokens.contains "selfCheck" then Mode.selfCheck
  else if tokens.contains "generate" then Mode.generate
  else if tokens.contains "sdkGen" then Mode.sdkGen
  else Mode.normal

/-- The workflow the `ready` handler drives for a classification. -/
def dispatch (o : Oracle) (a : Args) : Mode → Run
  | Mode.selfCheck => startSelfCheck o a
  | Mode.generate =>
      applyGenerationSettings o a a.output a.template a.zclProperties
  | Mode.sdkGen =>
      startSdkGeneration o a a.output a.template a.zclProperties
  | Mode.normal => startNormal o a (!a.noUi) a.showUrl a.uiMode

/-- The ready-signal handler: parse/log arguments, optionally
rotate the store file, then branch into exactly one workflow. -/
def onReady (o : Oracle) (a : Args) (sqliteFile : String) (fs : FS) :
    FS × Run :=
  let (fs1, clearTrace) :=
    if a.clearDb then clearDatabaseFile sqliteFile fs else (fs, [])
  let r := dispatch o a (classify a.tokens)
  (fs1, ⟨Ev.logArgv :: (clearTrace ++ r.trace), r.ok⟩)

/-- The activate-signal handler: log, then
`windowCreateIfNotThere(args.httpPort)`. -/
def onActivate (a : Args) : Trace :=
  [Ev.logInfo "Activate...", Ev.windowCreate a.httpPort]

/-- The quit-signal handler:
`closeDatabase(mainDatabase()).then(log)`. -/
def onQuit (o : Oracle) : Run :=
  (step o.closeDatabaseOk Ev.closeDatabase).andThen
    (emit [Ev.logInfo "Database closed, shutting down."])

/-! ## Trace observations -/

/-- Pipeline stage 1: the store-open invocation. -/
def isStoreOpen : Ev → Bool
  | Ev.initDatabase => true
  | _ => false

/-- Pipeline stage 2: registering the handle as the main database. -/
def isRegister : Ev → Bool
  | Ev.setMainDatabase => true
  | _ => false

/-- Pipeline stage 3: the schema-load invocation. -/
def isSchemaLoad : Ev → Bool
  | Ev.loadSchema => true
  | _ => false

/-- Pipeline stage 4: the ZCL metadata-load invocation. -/
def isMetadataLoad : Ev → Bool
  | Ev.loadZcl _ => true
  | _ => false

/-- Pipeline stage 5: the template-load invocation. -/
def isTemplateLoad : Ev → Bool
  | Ev.loadTemplates _ => true
  | _ => false

/-- Any stdout emission (`console.log`). -/
def isStdoutLine : Ev → Bool
  | Ev.stdout _ => true
  | _ => false

def isCloseDb : Ev → Bool
  | Ev.closeDatabase => true
  | _ => false

/-- Predicate `precededBy p q t`: every `q`-event in `t` has some `p`-event
strictly before it (checked at the first `q` occurrence). -/
def precededBy (p q : Ev → Bool) (t : Trace) : Bool :=
  !(t.any q) || ((t.any p) && decide (t.findIdx p < t.findIdx q))

/-- The shutdown-completion log line of the quit handler. -/
def shutdownLogLine : Ev := Ev.logInfo "Database closed, shutting down."

/-- The five-stage pipeline (SelfCheck/Normal) fully succeeds. -/
def pipelineOk (o : Oracle) : Bool :=
  o.initDatabaseOk && o.loadSchemaOk && o.loadZclOk && o.loadTemplatesOk

/-- The whole Generate-mode chain resolves: the four shared stages,
the optional template-directory setter, and the generation call. -/
def generateChainOk (o : Oracle) (td : Option String) : Bool :=
  o.initDatabaseOk && o.loadSchemaOk && o.loadZclOk &&
    (!truthyStr td || o.setTemplateDirOk) && o.generateOk

/-- The whole SdkGen-mode chain resolves. -/
def sdkChainOk (o : Oracle) : Bool :=
  o.initDatabaseOk && o.loadSchemaOk && o.loadZclOk && o.sdkGenOk

/-- A run of the environment in which every collaborator call
resolves and the HTTP server binds port 8080. -/
def allOkOracle : Oracle :=
  ⟨true, true, true, true, true, true, true, true, true, 8080, false⟩

/-- A sample argument set: no subcommand token, UI disabled, show-url
off, ephemeral configured port 0. -/
def sampleArgs : Args :=
  ⟨[], false, "out", none, none, true, false, "ui", "zcl.json", "gen.json", 0⟩

/-- The machine-parseable landing-page line for a bound port. -/
def urlLine (port : Nat) : String :=
  "url: http://localhost:" ++ toString port ++ "/index.html"

/-- The five pipeline stage kinds, in contract order. -/
inductive StageTag where
  | store
  | attach
  | schema
  | metadata
  | templates
  deriving DecidableEq, Repr

/-- Which pipeline stage (if any) an event is an invocation of. -/
def stageTag : Ev → Option StageTag
  | Ev.initDatabase => some StageTag.store
  | Ev.setMainDatabase => some StageTag.attach
  | Ev.loadSchema => some StageTag.schema
  | Ev.loadZcl _ => some StageTag.metadata
  | Ev.loadTemplates _ => some StageTag.templates
  | _ => none

/-- The subsequence of pipeline-stage invocations of a trace, in
invocation order. -/
def stageSeq (t : Trace) : List StageTag := t.filterMap stageTag

/-- The stage invocations a five-stage chain performs, as dictated by
which stages succeed: each stage is invoked exactly when all its
predecessors resolved. -/
def fiveStageSeq (o : Oracle) : List StageTag :=
  StageTag.store ::
    (if o.initDatabaseOk then
      StageTag.attach :: StageTag.schema ::
        (if o.loadSchemaOk then
          StageTag.metadata ::
            (if o.loadZclOk then [StageTag.templates] else [])
        else [])
    else [])

/-- The stage invocations of the four-stage chain used by the two
generation modes: template-load never appears. -/
def fourStageSeq (o : Oracle) : List StageTag :=
  StageTag.store ::
    (if o.initDatabaseOk then
      StageTag.attach :: StageTag.schema ::
        (if o.loadSchemaOk then [StageTag.metadata] else [])
    else [])

/-- Index `tagIdx x l` of the first `x` in a stage sequence. -/
def tagIdx (x : StageTag) (l : List StageTag) : Nat :=
  l.findIdx (fun t => t == x)

def hasTag (x : StageTag) (l : List StageTag) : Bool :=
  l.any (fun t => t == x)

/-- Every `y` stage invocation is preceded by an `x` invocation. -/
def tagBefore (x y : StageTag) (l : List StageTag) : Bool :=
  !(hasTag y l) || (hasTag x l && decide (tagIdx x l < tagIdx y l))

/-- Strict invocation order among the stages present in a run. -/
def tagOrderOk (l : List StageTag) : Bool :=
  tagBefore StageTag.store StageTag.schema l &&
    tagBefore StageTag.attach StageTag.schema l &&
    tagBefore StageTag.schema StageTag.metadata l &&
    tagBefore StageTag.metadata StageTag.templates l

/-- A stage is invoked only when all its predecessors completed
(resolved): schema-load requires the store open to have succeeded,
metadata-load additionally the schema load, template-load
additionally the metadata load. -/
def tagCompletionOk (o : Oracle) (l : List StageTag) : Bool :=
  (!(hasTag StageTag.schema l) || o.initDatabaseOk) &&
    (!(hasTag StageTag.metadata l) ||
      (o.initDatabaseOk && o.loadSchemaOk)) &&
    (!(hasTag StageTag.templates l) ||
      (o.initDatabaseOk && o.loadSchemaOk && o.loadZclOk))

/-- The first stage to fail aborts every remaining stage. -/
def tagAbortOk (o : Oracle) (l : List StageTag) : Bool :=
  (o.initDatabaseOk ||
      (!(hasTag StageTag.attach l) && !(hasTag StageTag.schema l) &&
        !(hasTag StageTag.metadata l) && !(hasTag StageTag.templates l))) &&
    (o.loadSchemaOk ||
      (!(hasTag StageTag.metadata l) && !(hasTag StageTag.templates l))) &&
    (o.loadZclOk || !(hasTag StageTag.templates l))

def stageDiscipline (o : Oracle) (l : List StageTag) : Bool :=
  tagOrderOk l && tagCompletionOk o l && tagAbortOk o l

/-! ## Facts about the association-list filesystem -/

theorem append_tilde_ne (p : String) : ¬p = p ++ "~" := by
  intro h
  have hl := congrArg String.length h
  rw [String.length_append] at hl
  have : ("~" : String).length = 1 := rfl
  omega

theorem find?_filter_of_imp (l : FS) (p r : String × String → Bool)
    (h : ∀ x, p x = true → r x = true) :
    (l.filter r).find? p = l.find? p := by
  induction l with
  | nil => rfl
  | cons a l ih =>
    by_cases hp : p a = true
    · have hr := h a hp
      simp [List.filter_cons, hr, List.find?_cons, hp]
    · by_cases hr : r a = true <;>
        simp [List.filter_cons, hr, List.find?_cons, hp, ih]

theorem countP_unlinkSync_self (l : FS) (q : String) :
    (unlinkSync l q).countP (fun kv => kv.1 == q) = 0 := by
  rw [List.countP_eq_zero]
  intro a ha
  have := (List.mem_filter.mp ha).2
  simp at this
  simp [this]

theorem find?_unlinkSync_self (l : FS) (q : String) :
    (unlinkSync l q).find? (fun kv => kv.1 == q) = none := by
  rw [List.find?_eq_none]
  intro a ha
  have := (List.mem_filter.mp ha).2
  simp at this
  simp [this]

theorem existsSync_readFile (fs : FS) (p : String)
    (h : existsSync fs p = true) : ∃ c, readFile fs p = some c := by
  have : ∃ kv ∈ fs, (kv.1 == p) = true := by
    simpa [existsSync, List.any_eq_true] using h
  obtain ⟨kv, hkv, hp⟩ := this
  have : ((fs.find? (fun kv => kv.1 == p)).isSome) = true := by
    rw [List.find?_isSome]
    exact ⟨kv, hkv, hp⟩
  obtain ⟨x, hx⟩ := Option.isSome_iff_exists.mp this
  exact ⟨x.2, by simp [readFile, hx]⟩

/-! ## Theorems -/

/-- C3: the store-reset rotation.  With no file at the store path it
is a no-op (no filesystem change, no events, no error).  With both
the store file and a backup present, the old backup is unlinked
first, then the store file is renamed onto the backup path, and
afterwards exactly one entry exists at the backup path and its
contents equal the pre-rotation contents of the store file. -/
theorem C3_clearDatabaseFile_rotation (p : String) (fs : FS) :
    (existsSync fs p = false → clearDatabaseFile p fs = (fs, [])) ∧
    (existsSync fs p = true → existsSync fs (p ++ "~") = true →
      (clearDatabaseFile p fs).2 =
        [Ev.logWarning ("Deleting old backup file: " ++ (p ++ "~")),
          Ev.unlink (p ++ "~"),
          Ev.logWarning ("Database restart requested, moving file: " ++ p ++
            " to " ++ (p ++ "~")),
          Ev.rename p (p ++ "~")] ∧
      (clearDatabaseFile p fs).1.countP (fun kv => kv.1 == p ++ "~") = 1 ∧
      readFile (clearDatabaseFile p fs).1 (p ++ "~") = readFile fs p) := by
  constructor
  · intro h
    simp [clearDatabaseFile, h]
  · intro h1 h2
    have hkey : ∀ x : String × String,
        (x.1 == p) = true → (!(x.1 == p ++ "~")) = true := by
      intro x hx
      have hxp : x.1 = p := by simpa using hx
      have : ¬x.1 = p ++ "~" := by
        rw [hxp]; exact append_tilde_ne p
      simpa using this
    have hread1 : readFile (unlinkSync fs (p ++ "~")) p = readFile fs p := by
      unfold readFile unlinkSync
      rw [find?_filter_of_imp fs _ _ hkey]
    obtain ⟨c, hc⟩ := existsSync_readFile fs p h1
    have hc1 : readFile (unlinkSync fs (p ++ "~")) p = some c := by
      rw [hread1, hc]
    have hren : renameSync (unlinkSync fs (p ++ "~")) p (p ++ "~") =
        (unlinkSync (unlinkSync (unlinkSync fs (p ++ "~")) p) (p ++ "~")) ++
          [(p ++ "~", c)] := by
      unfold renameSync
      rw [hc1]
    have hres : clearDatabaseFile p fs =
        (renameSync (unlinkSync fs (p ++ "~")) p (p ++ "~"),
          [Ev.logWarning ("Deleting old backup file: " ++ (p ++ "~")),
            Ev.unlink (p ++ "~"),
            Ev.logWarning ("Database restart requested, moving file: " ++ p ++
              " to " ++ (p ++ "~")),
            Ev.rename p (p ++ "~")]) := by
      simp [clearDatabaseFile, h1, h2]
    refine ⟨by rw [hres], ?_, ?_⟩
    · rw [hres]
      simp only [hren]
      rw [List.countP_append]
      rw [countP_unlinkSync_self]
      simp [List.countP_cons]
    · rw [hres]
      simp only [hren]
      unfold readFile
      rw [List.find?_append, find?_unlinkSync_self]
      simp [List.find?_cons]
      exact hc.symm

/-- C3 witness: the no-op case on an empty filesystem and the
rotation case on a filesystem holding a store file and a stale
backup, both at concrete inputs. -/
theorem C3_clearDatabaseFile_witness :
    clearDatabaseFile "db" ([] : FS) = ([], []) ∧
    (clearDatabaseFile "db" [("db", "NEW"), ("db~", "OLD")]).1.countP
        (fun kv => kv.1 == "db" ++ "~") = 1 ∧
    readFile (clearDatabaseFile "db" [("db", "NEW"), ("db~", "OLD")]).1
        ("db" ++ "~") = readFile [("db", "NEW"), ("db~", "OLD")] "db" :=
  ⟨(C3_clearDatabaseFile_rotation "db" []).1 (by decide),
    ((C3_clearDatabaseFile_rotation "db" [("db", "NEW"), ("db~", "OLD")]).2
        (by decide) (by decide)).2.1,
    ((C3_clearDatabaseFile_rotation "db" [("db", "NEW"), ("db~", "OLD")]).2
        (by decide) (by decide)).2.2⟩

/-- C5: in SelfCheck mode a stage failure yields no termination
request, exactly one error log, and a rejected (re-raised) chain;
full success yields exactly one success marker and exactly one
termination request. -/
theorem C5_selfCheck_failure_and_success_paths (o : Oracle) (a : Args) :
    ((startSelfCheck o a).trace.countP (fun e => e == Ev.quit) =
      if pipelineOk o then 1 else 0) ∧
    ((startSelfCheck o a).trace.countP
        (fun e => e == Ev.stdout "Self-check done!") =
      if pipelineOk o then 1 else 0) ∧
    ((startSelfCheck o a).trace.countP (fun e => e == Ev.logError) =
      if pipelineOk o then 0 else 1) ∧
    (startSelfCheck o a).ok = pipelineOk o := by
  obtain ⟨i, s, z, tp, hs, st, g, sg, c, bp, hd⟩ := o
  cases i <;> cases s <;> cases z <;> cases tp <;>
    exact ⟨rfl, rfl, rfl, rfl⟩

/-- C1 counterexample: with every pipeline stage succeeding and the
generation invocation rejecting, the Generate-mode chain settles with
the generation invoked, yet no termination request is issued and no
error is logged — the chain has no catch handler and `app.quit()`
sits in a success-only `.then`. -/
theorem C1_counterexample :
    ((applyGenerationSettings { allOkOracle with generateOk := false }
          sampleArgs "out" none none).trace.countP
        (fun e => e == Ev.generateCode "out") = 1) ∧
    (applyGenerationSettings { allOkOracle with generateOk := false }
        sampleArgs "out" none none).ok = false ∧
    ((applyGenerationSettings { allOkOracle with generateOk := false }
          sampleArgs "out" none none).trace.countP
        (fun e => e == Ev.quit) = 0) ∧
    ((applyGenerationSettings { allOkOracle with generateOk := false }
          sampleArgs "out" none none).trace.countP
        (fun e => e == Ev.logError) = 0) := by decide

/-- C1 amended: in Generate and SdkGen modes a termination request is
issued exactly when the whole chain (pipeline stages and mode-specific
invocation) resolves; on any failure no termination request is issued
and no error is logged by these chains. -/
theorem C1_generation_quit_only_on_success (o : Oracle) (a : Args)
    (gd : String) (td zp : Option String) :
    ((applyGenerationSettings o a gd td zp).trace.countP
        (fun e => e == Ev.quit) = if generateChainOk o td then 1 else 0) ∧
    ((applyGenerationSettings o a gd td zp).trace.countP
        (fun e => e == Ev.logError) = 0) ∧
    (applyGenerationSettings o a gd td zp).ok = generateChainOk o td ∧
    ((startSdkGeneration o a gd td zp).trace.countP
        (fun e => e == Ev.quit) = if sdkChainOk o then 1 else 0) ∧
    ((startSdkGeneration o a gd td zp).trace.countP
        (fun e => e == Ev.logError) = 0) ∧
    (startSdkGeneration o a gd td zp).ok = sdkChainOk o := by
  obtain ⟨i, s, z, tp, hs, st, g, sg, c, bp, hd⟩ := o
  cases htd : truthyStr td <;> cases i <;> cases s <;> cases z <;>
    cases st <;> cases g <;> cases sg <;>
    simp [applyGenerationSettings, startSdkGeneration,
      setGenerationDirAndTemplateDir, chainToZcl, attachToDb, step, emit,
      Run.andThen, generateChainOk, sdkChainOk, htd, List.countP_cons]

/-- C6 counterexample: with the server started on configured port 0
and actually bound to port 8080, the reactivate handler creates a
window on port 0 — the configured port — not on bound port 8080 of
the running server. -/
theorem C6_counterexample :
    allOkOracle.boundPort = 8080 ∧
    (startNormal allOkOracle sampleArgs (!sampleArgs.noUi) sampleArgs.showUrl
        sampleArgs.uiMode).ok = true ∧
    onActivate sampleArgs =
      [Ev.logInfo "Activate...", Ev.windowCreate 0] ∧
    Ev.windowCreate allOkOracle.boundPort ∉ onActivate sampleArgs := by
  decide

/-- C6 amended: the reactivate handler re-shows a window attached to
the configured argument port (which coincides with the running
bound port of the running server only when the server bound exactly
the configured port) and re-runs no pipeline stage — in particular the store is not
opened a second time. -/
theorem C6_activate_configured_port_no_pipeline (a : Args) :
    onActivate a = [Ev.logInfo "Activate...", Ev.windowCreate a.httpPort] ∧
    (onActivate a).countP isStoreOpen = 0 ∧
    (onActivate a).countP isRegister = 0 ∧
    (onActivate a).countP isSchemaLoad = 0 ∧
    (onActivate a).countP isMetadataLoad = 0 ∧
    (onActivate a).countP isTemplateLoad = 0 :=
  ⟨rfl, rfl, rfl, rfl, rfl, rfl⟩

/-- C10: in Generate and SdkGen modes the metadata loader is invoked
(exactly once, when the first two stages succeed) with the resolved
properties path, and the resolution uses the supplied override only
when it is truthy: `null`/absent and the empty string fall back to
the default path from the parsed arguments. -/
theorem C10_zcl_override_resolution (o : Oracle) (a : Args) (gd : String)
    (td zp : Option String) :
    ((applyGenerationSettings o a gd td zp).trace.countP isMetadataLoad =
      if o.initDatabaseOk && o.loadSchemaOk then 1 else 0) ∧
    ((applyGenerationSettings o a gd td zp).trace.countP
        (fun e => e == Ev.loadZcl (resolveZclPath zp a.zclPropertiesFile)) =
      if o.initDatabaseOk && o.loadSchemaOk then 1 else 0) ∧
    ((startSdkGeneration o a gd td zp).trace.countP isMetadataLoad =
      if o.initDatabaseOk && o.loadSchemaOk then 1 else 0) ∧
    ((startSdkGeneration o a gd td zp).trace.countP
        (fun e => e == Ev.loadZcl (resolveZclPath zp a.zclPropertiesFile)) =
      if o.initDatabaseOk && o.loadSchemaOk then 1 else 0) ∧
    resolveZclPath none a.zclPropertiesFile = a.zclPropertiesFile ∧
    resolveZclPath (some "") a.zclPropertiesFile = a.zclPropertiesFile ∧
    (∀ s : String, ¬s = "" →
      resolveZclPath (some s) a.zclPropertiesFile = s) := by
  obtain ⟨i, s, z, tp, hs, st, g, sg, c, bp, hd⟩ := o
  refine ⟨?_, ?_, ?_, ?_, rfl, rfl, ?_⟩
  · cases htd : truthyStr td <;> cases i <;> cases s <;> cases z <;>
      cases st <;> cases g <;>
      simp [applyGenerationSettings, setGenerationDirAndTemplateDir,
        chainToZcl, attachToDb, step, emit, Run.andThen, isMetadataLoad,
        htd, List.countP_cons]
  · cases htd : truthyStr td <;> cases i <;> cases s <;> cases z <;>
      cases st <;> cases g <;>
      simp [applyGenerationSettings, setGenerationDirAndTemplateDir,
        chainToZcl, attachToDb, step, emit, Run.andThen, htd,
        List.countP_cons]
  · cases i <;> cases s <;> cases z <;> cases sg <;>
      simp [startSdkGeneration, chainToZcl, attachToDb, step, emit,
        Run.andThen, isMetadataLoad, List.countP_cons]
  · cases i <;> cases s <;> cases z <;> cases sg <;>
      simp [startSdkGeneration, chainToZcl, attachToDb, step, emit,
        Run.andThen, List.countP_cons]
  · intro sPath hne
    simp [resolveZclPath, truthyStr, hne]

/-- C10 witness: a non-empty override is passed through, at a
concrete input. -/
theorem C10_zcl_override_witness :
    resolveZclPath (some "custom.json") "dflt.json" = "custom.json" :=
  (C10_zcl_override_resolution allOkOracle
      { sampleArgs with zclPropertiesFile := "dflt.json" } "o" none
      (some "custom.json")).2.2.2.2.2.2 "custom.json" (by decide)


theorem urlLine_length (q : Nat) :
    (urlLine q).length = 33 + (toString q).length := by
  simp [urlLine, String.length_append]
  have h1 : ("url: http://localhost:" : String).length = 22 := by decide
  have h2 : ("/index.html" : String).length = 11 := by decide
  omega

theorem ne_urlLine (s : String) (h : s.length < 33) (q : Nat) :
    ¬s = urlLine q := by
  intro he
  rw [he, urlLine_length] at h
  omega

set_option maxHeartbeats 800000 in
theorem normal_url_count (o : Oracle) (a : Args) (um : String) :
    (startNormal o a false true um).trace.countP
        (fun e => e == Ev.stdout (urlLine o.boundPort)) =
      if pipelineOk o && o.initHttpServerOk then 1 else 0 := by
  obtain ⟨i, s, z, tp, hs, st, g, sg, c, bp, hd⟩ := o
  cases i <;> cases s <;> cases z <;> cases tp <;> cases hs <;> cases hd <;>
    simp [startNormal, chainToTemplates, chainToZcl, attachToDb, step, emit,
      Run.andThen, Run.catchLogRethrow, normalUiPart, pipelineOk, urlLine,
      List.countP_cons]

set_option maxHeartbeats 800000 in
theorem normal_stdout_counts (o : Oracle) (a : Args) (um : String) :
    ((startNormal o a false true um).trace.countP isStdoutLine =
      if pipelineOk o && o.initHttpServerOk then 1 else 0) ∧
    ((startNormal o a true true um).trace.countP isStdoutLine = 0) ∧
    ((startNormal o a true false um).trace.countP isStdoutLine = 0) ∧
    ((startNormal o a false false um).trace.countP isStdoutLine = 0) := by
  obtain ⟨i, s, z, tp, hs, st, g, sg, c, bp, hd⟩ := o
  cases i <;> cases s <;> cases z <;> cases tp <;> cases hs <;> cases hd <;>
    exact ⟨rfl, rfl, rfl, rfl⟩

set_option maxHeartbeats 800000 in
theorem selfCheck_no_url (o : Oracle) (a : Args) (q : Nat) :
    (startSelfCheck o a).trace.countP
      (fun e => e == Ev.stdout (urlLine q)) = 0 := by
  have hA := ne_urlLine "Starting self-check" (by decide) q
  have hB := ne_urlLine "Self-check done!" (by decide) q
  obtain ⟨i, s, z, tp, hs, st, g, sg, c, bp, hd⟩ := o
  cases i <;> cases s <;> cases z <;> cases tp <;>
    simp [startSelfCheck, chainToTemplates, chainToZcl, attachToDb, step,
      emit, Run.andThen, Run.catchLogRethrow, List.countP_cons, hA, hB]

set_option maxHeartbeats 800000 in
theorem generation_no_stdout (o : Oracle) (a : Args) (gd : String)
    (td zp : Option String) :
    ((applyGenerationSettings o a gd td zp).trace.countP isStdoutLine = 0) ∧
    ((startSdkGeneration o a gd td zp).trace.countP isStdoutLine = 0) := by
  obtain ⟨i, s, z, tp, hs, st, g, sg, c, bp, hd⟩ := o
  cases htd : truthyStr td <;> cases i <;> cases s <;> cases z <;>
    cases st <;> cases g <;> cases sg <;>
    simp [applyGenerationSettings, startSdkGeneration,
      setGenerationDirAndTemplateDir, chainToZcl, attachToDb, step, emit,
      Run.andThen, htd, isStdoutLine, List.countP_cons]


theorem stageSeq_selfCheck (o : Oracle) (a : Args) :
    stageSeq (startSelfCheck o a).trace = fiveStageSeq o := by
  obtain ⟨i, s, z, tp, hs, st, g, sg, c, bp, hd⟩ := o
  cases i <;> cases s <;> cases z <;> cases tp <;> exact rfl

theorem stageSeq_normal (o : Oracle) (a : Args) (ue su : Bool)
    (um : String) :
    stageSeq (startNormal o a ue su um).trace = fiveStageSeq o := by
  obtain ⟨i, s, z, tp, hs, st, g, sg, c, bp, hd⟩ := o
  cases i <;> cases s <;> cases z <;> cases tp <;> cases hs <;>
    cases ue <;> cases su <;> cases hd <;> exact rfl

set_option maxHeartbeats 800000 in
theorem stageSeq_generate (o : Oracle) (a : Args) (gd : String)
    (td zp : Option String) :
    stageSeq (applyGenerationSettings o a gd td zp).trace =
      fourStageSeq o := by
  obtain ⟨i, s, z, tp, hs, st, g, sg, c, bp, hd⟩ := o
  cases htd : truthyStr td <;> cases i <;> cases s <;> cases z <;>
    cases st <;> cases g <;>
    simp [applyGenerationSettings, setGenerationDirAndTemplateDir,
      chainToZcl, attachToDb, step, emit, Run.andThen, htd, stageSeq,
      stageTag, fourStageSeq, List.filterMap_cons]

theorem stageSeq_sdkGen (o : Oracle) (a : Args) (gd : String)
    (td zp : Option String) :
    stageSeq (startSdkGeneration o a gd td zp).trace = fourStageSeq o := by
  obtain ⟨i, s, z, tp, hs, st, g, sg, c, bp, hd⟩ := o
  cases i <;> cases s <;> cases z <;> cases sg <;> exact rfl

/-- C2 counterexample: with every collaborator call succeeding, the
Generate and SdkGen chains perform no template-load stage at all,
while SelfCheck performs it — the five-stage pipeline is not
identical across all four commands. -/
theorem C2_counterexample :
    ((applyGenerationSettings allOkOracle sampleArgs "out" none
        none).trace.countP isTemplateLoad = 0) ∧
    ((startSdkGeneration allOkOracle sampleArgs "out" none
        none).trace.countP isTemplateLoad = 0) ∧
    ((startSelfCheck allOkOracle sampleArgs).trace.countP isTemplateLoad =
      1) ∧
    ((startNormal allOkOracle sampleArgs false false "ui").trace.countP
        isTemplateLoad = 1) := by decide

/-- C2 amended: SelfCheck and Normal run the same five stages in the
same order; Generate and SdkGen run only the first four stages (open
store, register handle, load schema, load metadata) in that same
order, omitting template-load — i.e. their stage sequence is the
four-stage restriction (the length-4 prefix) of the shared five-stage
pipeline. -/
theorem C2_pipeline_shared_restricted (o : Oracle) (a : Args)
    (ue su : Bool) (um gd : String) (td zp : Option String) :
    (stageSeq (startSelfCheck o a).trace = fiveStageSeq o) ∧
    (stageSeq (startNormal o a ue su um).trace = fiveStageSeq o) ∧
    (stageSeq (applyGenerationSettings o a gd td zp).trace =
      fourStageSeq o) ∧
    (stageSeq (startSdkGeneration o a gd td zp).trace = fourStageSeq o) ∧
    fourStageSeq o = (fiveStageSeq o).take 4 := by
  refine ⟨stageSeq_selfCheck o a, stageSeq_normal o a ue su um,
    stageSeq_generate o a gd td zp, stageSeq_sdkGen o a gd td zp, ?_⟩
  obtain ⟨i, s, z, tp, hs, st, g, sg, c, bp, hd⟩ := o
  cases i <;> cases s <;> cases z <;> exact rfl


/-- C8: in every pipeline run of every mode, stage order is strict —
schema-load is never invoked before store-open completed and the
handle was registered, metadata-load never before schema-load
completed, template-load never before metadata-load completed — and
the first stage to fail aborts all remaining stages. -/
theorem C8_stage_order_and_abort (o : Oracle) (a : Args) (ue su : Bool)
    (um gd : String) (td zp : Option String) :
    (stageDiscipline o (stageSeq (startSelfCheck o a).trace) = true) ∧
    (stageDiscipline o (stageSeq (startNormal o a ue su um).trace) =
      true) ∧
    (stageDiscipline o
        (stageSeq (applyGenerationSettings o a gd td zp).trace) = true) ∧
    (stageDiscipline o (stageSeq (startSdkGeneration o a gd td zp).trace) =
      true) := by
  rw [stageSeq_selfCheck, stageSeq_normal, stageSeq_generate,
    stageSeq_sdkGen]
  obtain ⟨i, s, z, tp, hs, st, g, sg, c, bp, hd⟩ := o
  cases i <;> cases s <;> cases z <;> cases tp <;> exact ⟨rfl, rfl, rfl, rfl⟩

/-- C4: in Normal mode with UI disabled and show-url requested,
exactly one stdout line is emitted — equal to
`url: http://localhost:<port>/index.html` for the port the server
actually bound (whatever port was configured, including 0) — and no
other mode or flag combination emits such a line. -/
theorem C4_url_line_emission (o : Oracle) (a : Args) (um : String)
    (q : Nat) :
    ((startNormal o a false true um).trace.countP
        (fun e => e == Ev.stdout (urlLine o.boundPort)) =
      if pipelineOk o && o.initHttpServerOk then 1 else 0) ∧
    ((startNormal o a false true um).trace.countP isStdoutLine =
      if pipelineOk o && o.initHttpServerOk then 1 else 0) ∧
    ((startNormal o a true true um).trace.countP isStdoutLine = 0) ∧
    ((startNormal o a true false um).trace.countP isStdoutLine = 0) ∧
    ((startNormal o a false false um).trace.countP isStdoutLine = 0) ∧
    ((startSelfCheck o a).trace.countP
        (fun e => e == Ev.stdout (urlLine q)) = 0) ∧
    (∀ (gd : String) (td zp : Option String),
      ((applyGenerationSettings o a gd td zp).trace.countP isStdoutLine =
        0) ∧
      ((startSdkGeneration o a gd td zp).trace.countP isStdoutLine = 0)) :=
  ⟨normal_url_count o a um, (normal_stdout_counts o a um).1,
    (normal_stdout_counts o a um).2.1, (normal_stdout_counts o a um).2.2.1,
    (normal_stdout_counts o a um).2.2.2, selfCheck_no_url o a q,
    fun gd td zp => generation_no_stdout o a gd td zp⟩

/-- C7: exactly one command classification is selected, by fixed
first-match priority: SelfCheck if its token is present, else
Generate, else SdkGen, else Normal — even when several recognized
tokens are present. -/
theorem C7_mode_dispatch_first_match (ts : List String) :
    (classify ts = Mode.selfCheck ↔ "selfCheck" ∈ ts) ∧
    (classify ts = Mode.generate ↔ "selfCheck" ∉ ts ∧ "generate" ∈ ts) ∧
    (classify ts = Mode.sdkGen ↔
      "selfCheck" ∉ ts ∧ "generate" ∉ ts ∧ "sdkGen" ∈ ts) ∧
    (classify ts = Mode.normal ↔
      "selfCheck" ∉ ts ∧ "generate" ∉ ts ∧ "sdkGen" ∉ ts) := by
  by_cases h1 : "selfCheck" ∈ ts <;> by_cases h2 : "generate" ∈ ts <;>
    by_cases h3 : "sdkGen" ∈ ts <;> simp [classify, h1, h2, h3]

/-- C9: the quit handler closes the current store handle first; the
shutdown-completion log line is emitted exactly when the close
completed, and only at a position strictly after the close. -/
theorem C9_quit_closes_before_completion_log (o : Oracle) :
    (onQuit o).trace.head? = some Ev.closeDatabase ∧
    (onQuit o).trace.countP (fun e => e == shutdownLogLine) =
      (if o.closeDatabaseOk then 1 else 0) ∧
    precededBy isCloseDb (fun e => e == shutdownLogLine) (onQuit o).trace =
      true := by
  obtain ⟨i, s, z, tp, hs, st, g, sg, c, bp, hd⟩ := o
  cases c <;> exact ⟨rfl, rfl, rfl⟩

end Zap
